import Mathlib

/-!
Shallow embedding of the OPC UA client library (`opcua_client` package):
subscription parameter handling (`subscription.py`), the keep-alive worker
(`connection.py`), the facade client (`client.py`) and node-id formatting
(`utils.py`).  Machine floats that only ever get compared for equality or
order are modelled as rationals; Python dictionaries keyed by node-id
strings are modelled as functions out of `String`.
-/

/-! ### Subscription parameters (src/opcua_client/subscription.py) -/

/-- Embeds `validate_subscription_parameters` (subscription.py, lines 36-55):
if `lifetime_count < max_keep_alive_count * 3` it is raised to that minimum,
otherwise all three inputs pass through unchanged. -/
def validate_subscription_parameters (period : ℚ) (lifetime_count : Nat)
    (max_keep_alive_count : Nat) : ℚ × Nat × Nat :=
  let min_lifetime := max_keep_alive_count * 3
  if lifetime_count < min_lifetime then
    (period, min_lifetime, max_keep_alive_count)
  else
    (period, lifetime_count, max_keep_alive_count)

/-- The client-side parameter record of an asyncua subscription
(`subscription.parameters`).  The repository's code writes only the
`Requested*` fields; the `Revised*` fields stand for the server-selected
values attached to the subscription object, which this code never writes. -/
structure SubscriptionParams where
  RequestedPublishingInterval : ℚ
  RequestedLifetimeCount : Nat
  RequestedMaxKeepAliveCount : Nat
  RevisedPublishingInterval : ℚ
  RevisedLifetimeCount : Nat
  RevisedMaxKeepAliveCount : Nat
deriving DecidableEq, Repr

/-- The `ModifySubscriptionResult` fields read by the code. -/
structure ModifyResult where
  RevisedPublishingInterval : ℚ
  RevisedLifetimeCount : Nat
  RevisedMaxKeepAliveCount : Nat
deriving DecidableEq, Repr

/-- Embeds `_update_subscription_parameters` (subscription.py, lines 332-340):
on a successful ModifySubscription the server's revised values are copied,
unmodified, into the subscription's `Requested*` fields. -/
def update_subscription_parameters (p : SubscriptionParams) (result : ModifyResult) :
    SubscriptionParams :=
  { p with
    RequestedPublishingInterval := result.RevisedPublishingInterval
    RequestedLifetimeCount := result.RevisedLifetimeCount
    RequestedMaxKeepAliveCount := result.RevisedMaxKeepAliveCount }

/-- Embeds the `BadServiceUnsupported` branch of `modify_subscription`
(subscription.py, lines 305-316): a warning is logged; when the subscription
carries a `parameters` attribute the requested values are written into it
and `True` is returned, otherwise `False`.  Output is
(warning logged, returned bool, resulting parameters). -/
def modify_subscription_service_unsupported (has_params : Bool)
    (p : SubscriptionParams) (period : ℚ) (lifetime_count : Nat)
    (max_keep_alive_count : Nat) : Bool × Bool × SubscriptionParams :=
  if has_params then
    (true, true,
     { p with
       RequestedPublishingInterval := period
       RequestedLifetimeCount := lifetime_count
       RequestedMaxKeepAliveCount := max_keep_alive_count })
  else
    (true, false, p)

/-- Embeds the revised-parameter inspection block of `create_subscription`
(subscription.py, lines 169-200).  The requested values are the output of
`validate_subscription_parameters`; the actual values are read from the
subscription object.  Returns (difference logged, ratio warning logged,
parameters the client continues with).  The code only inspects: it never
writes the parameters back, so the accepted values are the actual ones. -/
def check_revised_parameters (period : ℚ) (lifetime_count : Nat)
    (max_keep_alive_count : Nat) (actual_period : ℚ) (actual_lifetime : Nat)
    (actual_keepalive : Nat) : Bool × Bool × (ℚ × Nat × Nat) :=
  if actual_period ≠ period ∨ actual_lifetime ≠ lifetime_count ∨
      actual_keepalive ≠ max_keep_alive_count then
    (true, decide (actual_lifetime < actual_keepalive * 3),
     (actual_period, actual_lifetime, actual_keepalive))
  else
    (false, false, (actual_period, actual_lifetime, actual_keepalive))

/-- The create flow: `validate_subscription_parameters` followed by the
revised-parameter inspection of lines 169-200. -/
def create_subscription_check (period : ℚ) (lifetime_count : Nat)
    (max_keep_alive_count : Nat) (actual_period : ℚ) (actual_lifetime : Nat)
    (actual_keepalive : Nat) : Bool × Bool × (ℚ × Nat × Nat) :=
  let v := validate_subscription_parameters period lifetime_count max_keep_alive_count
  check_revised_parameters v.1 v.2.1 v.2.2 actual_period actual_lifetime actual_keepalive

/-! ### Node id rendering (subscription.py `normalize_node_id`,
utils.py `format_node_id`) -/

/-- The identifier part of a NodeId: the code distinguishes only the
`String` node-id type from the rest (numeric and others print with `i=`). -/
inductive NodeIdent where
  | num (n : Nat)
  | str (s : String)
deriving DecidableEq, Repr

/-- Python's f-string rendering of the identifier. -/
def identText : NodeIdent → String
  | .num n => toString n
  | .str s => s

/-- Embeds `normalize_node_id` (subscription.py, lines 397-410) for a value
carrying `NamespaceIndex` and `Identifier`: namespace 0 prints `i=IDENT`
regardless of identifier type; otherwise `ns=N;s=TEXT` for the String
node-id type and `ns=N;i=IDENT` for the rest. -/
def normalize_node_id (namespaceIndex : Nat) (ident : NodeIdent) : String :=
  if namespaceIndex = 0 then
    "i=" ++ identText ident
  else
    match ident with
    | .str s => "ns=" ++ toString namespaceIndex ++ ";s=" ++ s
    | .num n => "ns=" ++ toString namespaceIndex ++ ";i=" ++ toString n

/-- Embeds `format_node_id` (utils.py, lines 222-236): integer identifiers
print `ns=N;i=N`, all others `ns=N;s=TEXT`, with no special case for
namespace 0. -/
def format_node_id (namespaceIndex : Nat) (ident : NodeIdent) : String :=
  match ident with
  | .num n => "ns=" ++ toString namespaceIndex ++ ";i=" ++ toString n
  | .str s => "ns=" ++ toString namespaceIndex ++ ";s=" ++ s

/-! ### Theorems for C1, C2, C9 -/

/-- C1: the claim states that after any `modify` the revised
`lifetime_count` is at least `3 × max_keep_alive_count`.  `modify_subscription`
performs no such validation: `_update_subscription_parameters` stores the
server-revised values verbatim, so a server revising to lifetime 10,
keep-alive 20 leaves the subscription violating the 3x invariant. -/
theorem modify_ratio_counterexample :
    (update_subscription_parameters
      ⟨500, 600, 20, 500, 600, 20⟩ ⟨500, 10, 20⟩).RequestedLifetimeCount = 10 ∧
    ¬ (3 * (update_subscription_parameters
      ⟨500, 600, 20, 500, 600, 20⟩ ⟨500, 10, 20⟩).RequestedMaxKeepAliveCount ≤
        (update_subscription_parameters
          ⟨500, 600, 20, 500, 600, 20⟩ ⟨500, 10, 20⟩).RequestedLifetimeCount) := by
  constructor
  · rfl
  · decide

/-- C1 (amended): `validate_subscription_parameters` — applied on create,
not on modify — guarantees `lifetime_count ≥ 3 × max_keep_alive_count`,
while `modify_subscription` stores the revised (or fallback requested)
values exactly as given, enforcing no ratio. -/
theorem validate_ensures_ratio_modify_does_not (period : ℚ)
    (lifetime_count max_keep_alive_count : Nat) (p : SubscriptionParams)
    (r : ModifyResult) :
    3 * (validate_subscription_parameters period lifetime_count
          max_keep_alive_count).2.2 ≤
      (validate_subscription_parameters period lifetime_count
          max_keep_alive_count).2.1 ∧
    (update_subscription_parameters p r).RequestedLifetimeCount =
      r.RevisedLifetimeCount ∧
    (update_subscription_parameters p r).RequestedMaxKeepAliveCount =
      r.RevisedMaxKeepAliveCount := by
  refine ⟨?_, rfl, rfl⟩
  unfold validate_subscription_parameters
  by_cases h : lifetime_count < max_keep_alive_count * 3
  · simp [h]; omega
  · simp [h]; omega

/-- C2: when the server's revised parameters satisfy
`lifetime < 3 × keep_alive`, the create flow logs the ratio warning and the
client continues with exactly the revised values (no rejection, no
re-adjustment). -/
theorem create_accepts_revised_with_warning (period : ℚ)
    (lifetime_count max_keep_alive_count : Nat) (actual_period : ℚ)
    (actual_lifetime actual_keepalive : Nat)
    (hratio : actual_lifetime < actual_keepalive * 3) :
    (create_subscription_check period lifetime_count max_keep_alive_count
        actual_period actual_lifetime actual_keepalive).2.1 = true ∧
    (create_subscription_check period lifetime_count max_keep_alive_count
        actual_period actual_lifetime actual_keepalive).2.2 =
      (actual_period, actual_lifetime, actual_keepalive) := by
  have hv : max_keep_alive_count * 3 ≤
      (validate_subscription_parameters period lifetime_count
        max_keep_alive_count).2.1 := by
    unfold validate_subscription_parameters
    by_cases h : lifetime_count < max_keep_alive_count * 3
    · simp [h]
    · simp [h]; omega
  have hka : (validate_subscription_parameters period lifetime_count
      max_keep_alive_count).2.2 = max_keep_alive_count := by
    unfold validate_subscription_parameters
    by_cases h : lifetime_count < max_keep_alive_count * 3 <;> simp [h]
  unfold create_subscription_check check_revised_parameters
  have hdiff : actual_period ≠ (validate_subscription_parameters period
        lifetime_count max_keep_alive_count).1 ∨
      actual_lifetime ≠ (validate_subscription_parameters period
        lifetime_count max_keep_alive_count).2.1 ∨
      actual_keepalive ≠ (validate_subscription_parameters period
        lifetime_count max_keep_alive_count).2.2 := by
    by_contra hall
    push_neg at hall
    obtain ⟨-, hl, hk⟩ := hall
    rw [hl, hk] at hratio
    omega
  rw [if_pos hdiff]
  exact ⟨by simpa using hratio, rfl⟩

/-- C2 witness: requested (1000 ms, 600, 20) — already 3x-valid — revised by
the server to (1000 ms, 10, 20): the warning fires and the accepted values
are the revised ones. -/
theorem create_accepts_revised_with_warning_witness :
    (10 : Nat) < 20 * 3 ∧
    (create_subscription_check 1000 600 20 1000 10 20).2.1 = true ∧
    (create_subscription_check 1000 600 20 1000 10 20).2.2 = (1000, 10, 20) :=
  ⟨by decide, create_accepts_revised_with_warning 1000 600 20 1000 10 20 (by decide)⟩

/-- C9: the claim says the canonical form is `i=N` whenever the namespace
index is 0 — but `format_node_id` (utils.py) always emits the `ns=` prefix:
at namespace 0 with numeric identifier 2258 it produces `ns=0;i=2258`,
not `i=2258`. -/
theorem format_node_id_ns0_counterexample :
    format_node_id 0 (NodeIdent.num 2258) = "ns=0;i=2258" ∧
    format_node_id 0 (NodeIdent.num 2258) ≠ "i=2258" := by
  constructor
  · rfl
  · decide

/-- C9 (amended): `normalize_node_id` produces `i=IDENT` whenever the
namespace index is 0 (for string identifiers as well), `ns=N;i=N` for
numeric identifiers in a non-zero namespace, and `ns=N;s=TEXT` for string
identifiers in a non-zero namespace; `format_node_id` always includes the
`ns=N;` prefix, for namespace 0 included. -/
theorem node_id_string_forms (ns n : Nat) (s : String) (ident : NodeIdent)
    (hns : ns ≠ 0) :
    normalize_node_id 0 ident = "i=" ++ identText ident ∧
    normalize_node_id ns (NodeIdent.num n) =
      "ns=" ++ toString ns ++ ";i=" ++ toString n ∧
    normalize_node_id ns (NodeIdent.str s) =
      "ns=" ++ toString ns ++ ";s=" ++ s ∧
    format_node_id ns (NodeIdent.num n) =
      "ns=" ++ toString ns ++ ";i=" ++ toString n ∧
    format_node_id 0 (NodeIdent.num n) = "ns=" ++ toString 0 ++ ";i=" ++ toString n := by
  refine ⟨rfl, ?_, ?_, rfl, rfl⟩
  · simp [normalize_node_id, hns]
  · simp [normalize_node_id, hns]

/-- C9 amended witness at namespace 2, identifier 7 / "Counter". -/
theorem node_id_string_forms_witness :
    (2 : Nat) ≠ 0 ∧
    normalize_node_id 0 (NodeIdent.num 7) = "i=" ++ identText (NodeIdent.num 7) ∧
    normalize_node_id 2 (NodeIdent.num 7) = "ns=" ++ toString 2 ++ ";i=" ++ toString 7 ∧
    normalize_node_id 2 (NodeIdent.str "Counter") =
      "ns=" ++ toString 2 ++ ";s=" ++ "Counter" ∧
    format_node_id 2 (NodeIdent.num 7) = "ns=" ++ toString 2 ++ ";i=" ++ toString 7 ∧
    format_node_id 0 (NodeIdent.num 7) = "ns=" ++ toString 0 ++ ";i=" ++ toString 7 :=
  ⟨by decide, node_id_string_forms 2 7 "Counter" (NodeIdent.num 7) (by decide)⟩

/-! ### Keep-alive worker (src/opcua_client/connection.py, lines 23-95) -/

/-- Mutable state of `_keep_alive_worker`: the consecutive-failure counter
`reconnect_attempts` and `last_success_time`. -/
structure KeepAliveState where
  reconnect_attempts : Nat
  last_success_time : Nat
deriving DecidableEq, Repr

/-- Outcome of one tick of the worker loop: the cheap read of the server
time node either succeeds, or fails — and in the latter case a reconnect
attempt (when made) either succeeds or fails. -/
inductive KeepAliveTick where
  | success
  | failure (reconnect_succeeds : Bool)
deriving DecidableEq, Repr

/-- Observable side effects of one tick: whether a reconnect (recovery) was
attempted and how many seconds of back-off sleep were inserted before the
ordinary `interval` wait. -/
structure KeepAliveEffect where
  recovery_attempted : Bool
  backoff_seconds : Nat
deriving DecidableEq, Repr

/-- `max_reconnect_attempts` from `_keep_alive_worker`. -/
def max_reconnect_attempts : Nat := 5

/-- Embeds one iteration of the `while True` loop of `_keep_alive_worker`
(connection.py, lines 38-90).  On a successful read the counter resets and
`last_success_time` is set to the current time.  On a failed read the
counter is incremented; while it stays within `max_reconnect_attempts` a
reconnect is attempted (success resets counter and timestamp); once it
exceeds the maximum, no reconnect is attempted, the task sleeps 10 s and
the counter resets. -/
def keep_alive_tick (s : KeepAliveState) (now : Nat) :
    KeepAliveTick → KeepAliveState × KeepAliveEffect
  | .success => (⟨0, now⟩, ⟨false, 0⟩)
  | .failure reconnect_succeeds =>
    let attempts := s.reconnect_attempts + 1
    if attempts ≤ max_reconnect_attempts then
      if reconnect_succeeds then
        (⟨0, now⟩, ⟨true, 0⟩)
      else
        ({ s with reconnect_attempts := attempts }, ⟨true, 0⟩)
    else
      ({ s with reconnect_attempts := 0 }, ⟨false, 10⟩)

/-! ### Deadband filter tri-state (subscription.py, lines 824-840) -/

/-- The `ua.DataChangeFilter` fields set by the code. -/
structure DataChangeFilter where
  Trigger : Nat
  DeadbandType : Nat
  DeadbandValue : ℚ
deriving DecidableEq, Repr

/-- The slice of a monitored item's bookkeeping record the filter logic
reads: its current filter (`mfilter`), if any. -/
structure ItemData where
  mfilter : Option DataChangeFilter
deriving DecidableEq, Repr

/-- Embeds `_create_deadband_filter` (subscription.py, lines 824-840).
The Python argument is `None` or a float: `none` clears the filter, a
negative value keeps the item's existing filter (exactly as stored), and a
non-negative value builds a fresh absolute-deadband `DataChangeFilter`. -/
def create_deadband_filter (deadband_filter_value : Option ℚ)
    (item_data : Option ItemData) : Option DataChangeFilter :=
  match deadband_filter_value with
  | none => none
  | some v =>
    if v < 0 then
      match item_data with
      | some d => d.mfilter
      | none => none
    else
      some ⟨1, 1, v⟩

/-! ### Client facade (src/opcua_client/client.py) -/

/-- Errors surfaced synchronously by the facade; `sessionNotReady` stands
for the `RuntimeError` raised by `OpcUaClient._check_connection`, and
`unknownKey` for the error the spec expects on a repeated delete. -/
inductive UaErr where
  | sessionNotReady
  | unknownKey
deriving DecidableEq, Repr

/-- The user service calls of `OpcUaClient` that begin with
`self._check_connection()`. -/
inductive UserOp where
  | read
  | readArray
  | write
  | browse
  | call
  | callWithParams
  | createSubscription
  | subscribeDataChange
  | subscribeEvents
deriving DecidableEq, Repr

/-- Marker that a request reached the server-facing layer. -/
inductive Dispatched where
  | sent (op : UserOp)
deriving DecidableEq, Repr

/-- Embeds `OpcUaClient._check_connection` (client.py, lines 248-256):
raises when `self.client` is `None`. -/
def check_connection (client : Option Unit) : Except UaErr Unit :=
  match client with
  | none => .error .sessionNotReady
  | some _ => .ok ()

/-- Embeds the common prelude of every user service call of `OpcUaClient`
(read/write/browse/call/create_subscription/subscribe_*): first
`_check_connection`, only then the request is dispatched. -/
def service_call (client : Option Unit) (op : UserOp) : Except UaErr Dispatched := do
  let _ ← check_connection client
  return .sent op

/-- Local state of `OpcUaClient` relevant to disconnect: the underlying
client handle and the list of subscriptions created through the facade. -/
structure ClientSession where
  client : Option Unit
  subscriptions : List Nat
deriving DecidableEq, Repr

/-- Observable effects of `OpcUaClient.disconnect` /
`connection.close_session`. -/
inductive CloseEffect where
  | deleteSub (k : Nat)
  | cancelKeepAlive
  | closeChannel
deriving DecidableEq, Repr

/-- Embeds `OpcUaClient.disconnect` (client.py, lines 46-61) together with
`connection.close_session` (connection.py, lines 285-306): when a client is
present, every subscription in `self.subscriptions` is deleted, then the
keep-alive task is cancelled and the channel closed, and `self.client`
becomes `None`; when no client is present the call does nothing. -/
def opcua_disconnect (s : ClientSession) : ClientSession × List CloseEffect :=
  match s.client with
  | none => (s, [])
  | some _ =>
    ({ client := none, subscriptions := s.subscriptions },
     s.subscriptions.map CloseEffect.deleteSub ++
       [CloseEffect.cancelKeepAlive, CloseEffect.closeChannel])

/-! ### Theorems for C3, C4, C5, C6, C7 -/

/-- C3: one keep-alive tick — on failure the attempt counter is
incremented and, while the incremented count stays within the maximum of 5,
a recovery (reconnect) is attempted, a failed recovery leaving the
incremented count in place; once the count exceeds 5 consecutive failures
the task backs off for 10 seconds and resets the counter; on success the
failure counter resets and `last_success_time` becomes the current time. -/
theorem keep_alive_tick_spec (s : KeepAliveState) (now : Nat) (r : Bool) :
    (keep_alive_tick s now .success).1 = ⟨0, now⟩ ∧
    (s.reconnect_attempts + 1 ≤ max_reconnect_attempts →
      (keep_alive_tick s now (.failure r)).2.recovery_attempted = true ∧
      (keep_alive_tick s now (.failure r)).2.backoff_seconds = 0 ∧
      (r = false →
        (keep_alive_tick s now (.failure r)).1.reconnect_attempts =
          s.reconnect_attempts + 1) ∧
      (r = true → (keep_alive_tick s now (.failure r)).1 = ⟨0, now⟩)) ∧
    (s.reconnect_attempts + 1 > max_reconnect_attempts →
      (keep_alive_tick s now (.failure r)).2.recovery_attempted = false ∧
      (keep_alive_tick s now (.failure r)).2.backoff_seconds = 10 ∧
      (keep_alive_tick s now (.failure r)).1.reconnect_attempts = 0 ∧
      (keep_alive_tick s now (.failure r)).1.last_success_time =
        s.last_success_time) := by
  refine ⟨rfl, ?_, ?_⟩
  · intro hle
    simp only [keep_alive_tick, if_pos hle]
    cases r <;> simp
  · intro hgt
    simp only [keep_alive_tick, if_neg (by omega : ¬ s.reconnect_attempts + 1 ≤ max_reconnect_attempts)]
    simp

/-- C3 witness: at 5 accumulated failures (5 failed recoveries in a row),
the next failed tick attempts no recovery, backs off 10 s and resets; a
successful tick from the same state resets the counter and stamps the time. -/
theorem keep_alive_tick_spec_witness :
    (keep_alive_tick ⟨5, 100⟩ 200 .success).1 = ⟨0, 200⟩ ∧
    (keep_alive_tick ⟨5, 100⟩ 200 (.failure false)).2.recovery_attempted = false ∧
    (keep_alive_tick ⟨5, 100⟩ 200 (.failure false)).2.backoff_seconds = 10 ∧
    (keep_alive_tick ⟨5, 100⟩ 200 (.failure false)).1.reconnect_attempts = 0 ∧
    (keep_alive_tick ⟨5, 100⟩ 200 (.failure false)).1.last_success_time = 100 := by
  have h := keep_alive_tick_spec ⟨5, 100⟩ 200 false
  exact ⟨h.1, (h.2.2 (by decide)).1, (h.2.2 (by decide)).2.1,
    (h.2.2 (by decide)).2.2.1, (h.2.2 (by decide)).2.2.2⟩

/-- C4: the filter argument of `modify_monitored_item` is tri-state —
`none` (Python `None`) clears the filter, a negative value (the `-1`
"unset" default) passes the item's existing filter through exactly as
stored, and a non-negative value replaces it with a fresh absolute-deadband
`DataChangeFilter`. -/
theorem filter_tristate (v : ℚ) (d : ItemData) :
    create_deadband_filter none (some d) = none ∧
    (v < 0 → create_deadband_filter (some v) (some d) = d.mfilter) ∧
    (0 ≤ v → create_deadband_filter (some v) (some d) =
      some ⟨1, 1, v⟩) := by
  refine ⟨rfl, ?_, ?_⟩
  · intro hv
    simp [create_deadband_filter, hv]
  · intro hv
    simp [create_deadband_filter, not_lt.mpr hv]

/-- C4 witness: an item holding an absolute deadband filter of 5;
"unset" (-1) preserves it exactly, and 2 replaces it. -/
theorem filter_tristate_witness :
    ((-1 : ℚ) < 0 ∧ (0 : ℚ) ≤ 2) ∧
    create_deadband_filter (some (-1)) (some ⟨some ⟨1, 1, 5⟩⟩) = some ⟨1, 1, 5⟩ ∧
    create_deadband_filter (some 2) (some ⟨some ⟨1, 1, 5⟩⟩) = some ⟨1, 1, 2⟩ :=
  ⟨⟨by norm_num, by norm_num⟩,
   (filter_tristate (-1) ⟨some ⟨1, 1, 5⟩⟩).2.1 (by norm_num),
   (filter_tristate 2 ⟨some ⟨1, 1, 5⟩⟩).2.2 (by norm_num)⟩

/-- C5: on a `BadServiceUnsupported` rejection of ModifySubscription (for a
subscription carrying its `parameters` record), the client logs the
condition, writes the requested values into its local parameters, leaves
every revised value untouched, and reports success (`True`). -/
theorem modify_unsupported_retains_requested (p : SubscriptionParams)
    (period : ℚ) (lifetime_count max_keep_alive_count : Nat) :
    (modify_subscription_service_unsupported true p period lifetime_count
        max_keep_alive_count).1 = true ∧
    (modify_subscription_service_unsupported true p period lifetime_count
        max_keep_alive_count).2.1 = true ∧
    (modify_subscription_service_unsupported true p period lifetime_count
        max_keep_alive_count).2.2 =
      { p with
        RequestedPublishingInterval := period
        RequestedLifetimeCount := lifetime_count
        RequestedMaxKeepAliveCount := max_keep_alive_count } ∧
    (modify_subscription_service_unsupported true p period lifetime_count
        max_keep_alive_count).2.2.RevisedPublishingInterval =
      p.RevisedPublishingInterval ∧
    (modify_subscription_service_unsupported true p period lifetime_count
        max_keep_alive_count).2.2.RevisedLifetimeCount =
      p.RevisedLifetimeCount ∧
    (modify_subscription_service_unsupported true p period lifetime_count
        max_keep_alive_count).2.2.RevisedMaxKeepAliveCount =
      p.RevisedMaxKeepAliveCount :=
  ⟨rfl, rfl, rfl, rfl, rfl, rfl⟩

/-- C6: every user service call of `OpcUaClient` (read, write, browse,
call, create_subscription, subscribe_*) issued while no session is
established fails fast with the session-not-ready error; nothing is
dispatched to the server. -/
theorem service_call_fails_fast (client : Option Unit) (op : UserOp)
    (h : client = none) :
    service_call client op = .error .sessionNotReady := by
  subst h
  rfl

/-- C6 witness: a read on a disconnected facade. -/
theorem service_call_fails_fast_witness :
    service_call none .read = .error .sessionNotReady :=
  service_call_fails_fast none .read rfl

/-- C7: `disconnect` is idempotent — the second of two consecutive calls
changes nothing and emits no effects (it returns success) — and a
disconnect of a connected session deletes every subscription of the
session, cancels the keep-alive task and closes the channel. -/
theorem disconnect_idempotent (s : ClientSession) :
    opcua_disconnect (opcua_disconnect s).1 = ((opcua_disconnect s).1, []) ∧
    (s.client = some () →
      (opcua_disconnect s).2 =
        s.subscriptions.map CloseEffect.deleteSub ++
          [CloseEffect.cancelKeepAlive, CloseEffect.closeChannel] ∧
      (opcua_disconnect s).1.client = none) := by
  constructor
  · cases hc : s.client with
    | none => simp [opcua_disconnect, hc]
    | some u => simp [opcua_disconnect, hc]
  · intro hc
    simp [opcua_disconnect, hc]

/-- C7 witness: a connected session holding subscriptions 3 and 7. -/
theorem disconnect_idempotent_witness :
    opcua_disconnect (opcua_disconnect ⟨some (), [3, 7]⟩).1 =
      ((opcua_disconnect ⟨some (), [3, 7]⟩).1, []) ∧
    (opcua_disconnect ⟨some (), [3, 7]⟩).2 =
      [CloseEffect.deleteSub 3, CloseEffect.deleteSub 7,
       CloseEffect.cancelKeepAlive, CloseEffect.closeChannel] ∧
    (opcua_disconnect ⟨some (), [3, 7]⟩).1.client = none :=
  ⟨(disconnect_idempotent ⟨some (), [3, 7]⟩).1,
   ((disconnect_idempotent ⟨some (), [3, 7]⟩).2 rfl).1,
   ((disconnect_idempotent ⟨some (), [3, 7]⟩).2 rfl).2⟩

/-! ### Subscription deletion (subscription.py lines 343-359,
client.py lines 236-246) -/

/-- Embeds the module-level `delete_subscription` (subscription.py, lines
343-359) against the server's set of live subscription ids:
`subscription.delete()` removes a live subscription and the wrapper returns
`True`; for an already-deleted id the server call raises, the exception is
caught and logged, and the wrapper returns `False`. -/
def delete_subscription (live : List Nat) (subId : Nat) : Bool × List Nat :=
  if subId ∈ live then (true, live.erase subId) else (false, live)

/-- State of the facade plus the server, for the delete path: the facade's
client handle and local `self.subscriptions` list, and the server's live
subscription ids. -/
structure DeleteState where
  client : Option Unit
  subscriptions : List Nat
  serverLive : List Nat
deriving DecidableEq, Repr

/-- Embeds `OpcUaClient.delete_subscription` (client.py, lines 236-246):
`_check_connection`, then the module-level delete — whose boolean result is
ignored — then removal of the subscription from the local list when
present.  The method returns `None` (success) whenever the connection check
passes. -/
def client_delete_subscription (s : DeleteState) (subId : Nat) :
    Except UaErr DeleteState :=
  match s.client with
  | none => .error .sessionNotReady
  | some _ =>
    let r := delete_subscription s.serverLive subId
    .ok { s with
          serverLive := r.2
          subscriptions := s.subscriptions.erase subId }

/-! ### DataChangeHandler value storage (subscription.py, lines 502-547) -/

/-- Python's `l[-n:]` slice for a non-negative `n`: for `n = 0` the bound
`-0` collapses to `0`, so the WHOLE list is returned; otherwise the last
`n` elements. -/
def pySliceLast {α : Type _} (n : Nat) (l : List α) : List α :=
  if n = 0 then l else l.drop (l.length - n)

/-- Embeds the store branch of `DataChangeHandler.__call__` (subscription.py,
lines 524-536) for one node's list: append the entry, then, if the list
exceeds `max_values`, trim with the slice `[-max_values:]`. -/
def store_value {α : Type _} (max_values : Nat) (l : List α) (v : α) : List α :=
  let appended := l ++ [v]
  if max_values < appended.length then pySliceLast max_values appended else appended

/-- The list stored for one node after its deliveries, in delivery order
(the node's entry starts at `[]`). -/
def stored_after {α : Type _} (max_values : Nat) (vs : List α) : List α :=
  vs.foldl (store_value max_values) []

/-- One delivery updates only the delivered node's list in the
`stored_values` dictionary. -/
def handler_step {α : Type _} (max_values : Nat) (store : String → List α)
    (d : String × α) : String → List α :=
  fun n => if n = d.1 then store_value max_values (store n) d.2 else store n

/-- The `stored_values` dictionary after a sequence of deliveries,
starting from the empty dictionary. -/
def handler_run {α : Type _} (max_values : Nat) (ds : List (String × α)) :
    String → List α :=
  ds.foldl (handler_step max_values) (fun _ => [])

/-- One store step, seen on suffixes: when `max_values ≥ 1`, pushing `v`
onto the stored suffix of `xs` yields the stored suffix of `xs ++ [v]`. -/
theorem store_value_suffix {α : Type _} (m : Nat) (hm : 1 ≤ m) (xs : List α)
    (v : α) :
    store_value m (xs.drop (xs.length - m)) v =
      (xs ++ [v]).drop (xs.length + 1 - m) := by
  have hm0 : m ≠ 0 := by omega
  rcases le_or_lt m xs.length with hle | hlt
  · have hlen : (xs.drop (xs.length - m)).length = m := by
      rw [List.length_drop]; omega
    have hcond : m < (xs.drop (xs.length - m) ++ [v]).length := by
      rw [List.length_append, hlen]; simp
    unfold store_value pySliceLast
    rw [if_pos hcond, if_neg hm0]
    have hlen2 : (xs.drop (xs.length - m) ++ [v]).length - m = 1 := by
      rw [List.length_append, hlen]; simp
    rw [hlen2,
      List.drop_append_of_le_length
        (by rw [hlen]; exact hm : 1 ≤ (xs.drop (xs.length - m)).length),
      List.drop_append_of_le_length
        (by clear hcond hlen2 hlen; omega : xs.length + 1 - m ≤ xs.length),
      List.drop_drop]
    have harith : xs.length - m + 1 = xs.length + 1 - m := by
      clear hcond hlen2 hlen
      omega
    rw [harith]
  · have h1 : xs.length - m = 0 := by omega
    have h2 : xs.length + 1 - m = 0 := by omega
    rw [h1, h2, List.drop_zero, List.drop_zero]
    have hc : ¬ m < (xs ++ [v]).length := by
      simp only [List.length_append, List.length_cons, List.length_nil]
      omega
    unfold store_value
    rw [if_neg hc]

/-- For `max_values ≥ 1`, the per-node stored list is exactly the length-
`max_values` suffix of the values delivered for that node, in order. -/
theorem stored_after_eq_suffix {α : Type _} (m : Nat) (hm : 1 ≤ m)
    (vs : List α) :
    stored_after m vs = vs.drop (vs.length - m) := by
  induction vs using List.reverseRecOn with
  | nil => simp [stored_after]
  | append_singleton xs v ih =>
    unfold stored_after at ih ⊢
    rw [List.foldl_append, List.foldl_cons, List.foldl_nil, ih,
      store_value_suffix m hm xs v, List.length_append]
    rfl

/-- Evaluating the dictionary fold at one node selects exactly that node's
deliveries. -/
theorem handler_run_filter {α : Type _} (m : Nat) (ds : List (String × α))
    (store : String → List α) (n : String) :
    ds.foldl (handler_step m) store n =
      ((ds.filter (fun d => d.1 == n)).map Prod.snd).foldl
        (store_value m) (store n) := by
  induction ds generalizing store with
  | nil => rfl
  | cons d tl ih =>
    rw [List.foldl_cons, ih]
    by_cases hd : d.1 = n
    · have hb : (d.1 == n) = true := by simp [hd]
      simp only [List.filter_cons, hb, if_pos, List.map_cons, List.foldl_cons,
        handler_step, hd]
      simp
    · have hb : (d.1 == n) = true ↔ False := by simp [hd]
      simp only [List.filter_cons, hb, if_false, handler_step]
      rw [if_neg (fun h => hd h.symm)]

/-- C10: the claim promises at most `max_values` stored entries for every
`DataChangeHandler`, but for a handler constructed with `max_values = 0`
the trim slice is `l[-0:]`, which is the whole list: after two deliveries
to the same node, two entries are stored, exceeding `max_values = 0`. -/
theorem store_values_counterexample :
    (handler_run 0 [("n", (1 : Nat)), ("n", 2)] "n").length = 2 ∧
    ¬ ((handler_run 0 [("n", (1 : Nat)), ("n", 2)] "n").length ≤ 0) := by
  constructor
  · rfl
  · decide

/-- C10 (amended): for a handler with `store_values` enabled and
`max_values ≥ 1`, after any sequence of delivered notifications the stored
list of every node is exactly the most recent (at most `max_values`)
entries delivered for that node, in delivery order — i.e. the
`max_values`-suffix of that node's delivery stream; in particular it never
exceeds `max_values` entries.  For `max_values = 0` the Python slice
`[-0:]` keeps the whole list and the bound fails. -/
theorem store_values_bounded_suffix {α : Type _} (m : Nat) (hm : 1 ≤ m)
    (ds : List (String × α)) (n : String) :
    handler_run m ds n =
      ((ds.filter (fun d => d.1 == n)).map Prod.snd).drop
        (((ds.filter (fun d => d.1 == n)).map Prod.snd).length - m) ∧
    (handler_run m ds n).length ≤ m := by
  have h : handler_run m ds n =
      stored_after m ((ds.filter (fun d => d.1 == n)).map Prod.snd) := by
    unfold handler_run stored_after
    exact handler_run_filter m ds (fun _ => []) n
  rw [h, stored_after_eq_suffix m hm]
  refine ⟨rfl, ?_⟩
  rw [List.length_drop]
  omega

/-- C10 amended witness: `max_values = 2`, three deliveries to node "n"
interleaved with one to node "x": node "n" stores the last two of its own
values, in order. -/
theorem store_values_bounded_suffix_witness :
    (1 : Nat) ≤ 2 ∧
    handler_run 2 [("n", (1 : Nat)), ("x", 9), ("n", 2), ("n", 3)] "n" = [2, 3] ∧
    (handler_run 2 [("n", (1 : Nat)), ("x", 9), ("n", 2), ("n", 3)] "n").length ≤ 2 := by
  have h := store_values_bounded_suffix 2 (by decide)
    [("n", (1 : Nat)), ("x", 9), ("n", 2), ("n", 3)] "n"
  exact ⟨by decide, by rw [h.1]; rfl, h.2⟩

/-! ### Theorems for C8 -/

/-- Equation for `delete_subscription` at a live id. -/
theorem delete_subscription_mem {live : List Nat} {k : Nat} (h : k ∈ live) :
    delete_subscription live k = (true, live.erase k) := by
  unfold delete_subscription
  rw [if_pos h]

/-- Equation for `delete_subscription` at an unknown id. -/
theorem delete_subscription_not_mem {live : List Nat} {k : Nat} (h : k ∉ live) :
    delete_subscription live k = (false, live) := by
  unfold delete_subscription
  rw [if_neg h]

/-- After a delete, the id is no longer live (with distinct server ids). -/
theorem delete_subscription_removes {live : List Nat} (hnd : live.Nodup)
    (k : Nat) : k ∉ (delete_subscription live k).2 := by
  by_cases hk : k ∈ live
  · rw [delete_subscription_mem hk]
    exact hnd.not_mem_erase
  · rw [delete_subscription_not_mem hk]
    exact hk

/-- Equation for the facade delete while connected. -/
theorem client_delete_eq {s : DeleteState} (hc : s.client = some ()) (k : Nat) :
    client_delete_subscription s k =
      .ok { s with
            serverLive := (delete_subscription s.serverLive k).2
            subscriptions := s.subscriptions.erase k } := by
  unfold client_delete_subscription
  rw [hc]

/-- C8: the claim says a second `delete_subscription` on the same key
returns `UnknownKey` — but after a successful delete the facade's second
call succeeds again: the server-side delete fails and the module-level
helper returns `False`, yet `OpcUaClient.delete_subscription` ignores that
result and returns normally, never an `UnknownKey` error. -/
theorem delete_twice_counterexample :
    client_delete_subscription ⟨some (), [1], [1]⟩ 1 =
      .ok ⟨some (), [], []⟩ ∧
    client_delete_subscription ⟨some (), [], []⟩ 1 =
      .ok ⟨some (), [], []⟩ ∧
    client_delete_subscription ⟨some (), [], []⟩ 1 ≠
      .error .unknownKey := by
  refine ⟨rfl, rfl, ?_⟩
  intro h
  exact Except.noConfusion h

/-- C8 (amended): after `delete_subscription(k)` succeeds, a second call
with the same key is not an `UnknownKey` error: the module-level
`delete_subscription` reports failure (`False`) because the server no
longer knows the id, and the facade ignores that result and returns
success again. -/
theorem delete_twice_second_ok (s : DeleteState) (k : Nat)
    (hc : s.client = some ()) (hnd : s.serverLive.Nodup) :
    ∃ s₁, client_delete_subscription s k = .ok s₁ ∧
      (delete_subscription s₁.serverLive k).1 = false ∧
      client_delete_subscription s₁ k =
        .ok { s₁ with subscriptions := s₁.subscriptions.erase k } := by
  refine ⟨{ s with
            serverLive := (delete_subscription s.serverLive k).2
            subscriptions := s.subscriptions.erase k }, ?_, ?_, ?_⟩
  · exact client_delete_eq hc k
  · rw [delete_subscription_not_mem (delete_subscription_removes hnd k)]
  · have hc1 : (DeleteState.mk s.client (s.subscriptions.erase k)
        (delete_subscription s.serverLive k).2).client = some () := hc
    rw [client_delete_eq hc1 k,
      delete_subscription_not_mem (delete_subscription_removes hnd k)]

/-- C8 amended witness: a connected facade with server subscriptions
[1, 2]; delete 1 twice. -/
theorem delete_twice_second_ok_witness :
    ((⟨some (), [1], [1, 2]⟩ : DeleteState).client = some () ∧
      (⟨some (), [1], [1, 2]⟩ : DeleteState).serverLive.Nodup) ∧
    ∃ s₁, client_delete_subscription ⟨some (), [1], [1, 2]⟩ 1 = .ok s₁ ∧
      (delete_subscription s₁.serverLive 1).1 = false ∧
      client_delete_subscription s₁ 1 =
        .ok { s₁ with subscriptions := s₁.subscriptions.erase 1 } :=
  ⟨⟨rfl, by decide⟩,
   delete_twice_second_ok ⟨some (), [1], [1, 2]⟩ 1 rfl (by decide)⟩
